import Mathlib

/-!
Shallow embedding of `src/native/p/src/lib.rs` (the `px` variant is
textually identical up to comments), a Rust NIF library managing child
OS processes.  Pure helpers (`parse_stdio_config`, `exit_status_to_code`)
become Lean functions.  Each NIF becomes a function from the handle state
(`ProcessResource`) and an OS oracle (the outcomes the kernel would hand
back for the syscalls the NIF makes) to the new state, the NIF result and
a trace of the syscalls issued.  Mutex locking in the source is sequential
in this embedding (a lock in a single-threaded run always succeeds), so
the `.lock().map_err(...)` failure arms are unreachable and not modelled.
-/

namespace P

/-- Rust `std::process::ExitStatus`, modelled by the two observers the code
uses: `code()` (the normal-exit code, when the process exited normally) and
`signal()` (the terminating signal number, when it was killed by a signal). -/
structure ExitStatus where
  code : Option Int
  signal : Option Int
deriving DecidableEq, Repr

/-- `exit_status_to_code` from lib.rs lines 84-97: normal exit yields its
own code, signal termination yields `128 + signal`, otherwise `-1`. -/
def exit_status_to_code (status : ExitStatus) : Int :=
  match status.code with
  | some code => code
  | none =>
    match status.signal with
    | some signal => 128 + signal
    | none => -1

/-- Rust `std::process::Child` as the code observes it: the OS pid
(`child.id()`). -/
structure Child where
  id : Int
deriving DecidableEq, Repr

/-- `ProcessResource` from lib.rs lines 62-72.  Each field sits behind its
own `Mutex` in the source; here the state is the tuple of slot contents.
Pipe slots carry `Unit` because no claim inspects the pipe object itself,
only whether the slot is occupied. -/
structure ProcessResource where
  child : Option Child
  cached_exit_code : Option Int
  stdin_pipe : Option Unit
  stdout_pipe : Option Unit
  stderr_pipe : Option Unit
deriving DecidableEq, Repr

/-- `StdioConfig` from lib.rs lines 34-39. -/
inductive StdioConfig
  | nullMode
  | pipeMode
  | inheritMode
  | fileMode (path : String)
deriving DecidableEq, Repr

/-- `rustler::Error` as the code constructs it: `Error::Term(msg)`.
A `NifResult` returning `Err` raises an exception in the host runtime,
as opposed to returning an `{error, ...}` tuple term. -/
inductive NifError
  | termError (msg : String)
deriving DecidableEq, Repr

/-- `parse_stdio_config` from lib.rs lines 44-60. -/
def parse_stdio_config (mode : String) (path : String) :
    Except NifError StdioConfig :=
  if mode = "null" then Except.ok StdioConfig.nullMode
  else if mode = "pipe" then Except.ok StdioConfig.pipeMode
  else if mode = "inherit" then Except.ok StdioConfig.inheritMode
  else if mode = "file" then
    if path.isEmpty then
      Except.error (NifError.termError "file mode requires a path")
    else Except.ok (StdioConfig.fileMode path)
  else
    Except.error (NifError.termError
      ("invalid stdio mode: " ++ mode ++ ", expected null, pipe, inherit, or file"))

/-- The observable OS interactions the NIFs perform, recorded as a trace so
that claims about "no kill syscall" or "no OS call before validation" are
statable. -/
inductive Syscall
  | openFileCall (path : String)
  | createFileCall (path : String)
  | processSpawned (pid : Int)
  | setNonblockingCall
  | killCall (pid : Int) (signal : Int)
  | waitCall (pid : Int)
  | tryWaitCall (pid : Int)
  | writeCall (pid : Unit)
  | readCall (pid : Unit)
deriving DecidableEq, Repr

/-- Which syscalls reap or terminate a child: the only OS primitives by
which the engine could clean up a process it created.  Used to state
launch-cleanup claims. -/
def Syscall.isCleanupOf (s : Syscall) (pid : Int) : Bool :=
  match s with
  | Syscall.killCall p _ => p = pid
  | Syscall.waitCall p => p = pid
  | Syscall.tryWaitCall p => p = pid
  | _ => false

/-- Result term of `signal_nif`: `:ok`, `{:error, :already_exited}`, or
`{:error, msg}`. -/
inductive SignalTerm
  | ok
  | errorAlreadyExited
  | errorMsg (msg : String)
deriving DecidableEq, Repr

/-- OS oracle for `signal_nif`: whether `Signal::try_from(signal)` accepts
the number, and the outcome the `kill` syscall would have. -/
structure SignalOracle where
  sigValid : Bool
  killOk : Bool
  killErrMsg : String
deriving Repr

/-- `signal_nif` from lib.rs lines 262-302.  It mutates nothing: it reads
`cached_exit_code` (holding that lock throughout), reads the pid out of
`child`, then issues `kill`.  Returns the NIF result and the syscall
trace. -/
def signal_nif (r : ProcessResource) (o : SignalOracle) (signal : Int) :
    Except NifError SignalTerm × List Syscall :=
  if r.cached_exit_code.isSome then
    (Except.ok SignalTerm.errorAlreadyExited, [])
  else
    match r.child with
    | none => (Except.ok SignalTerm.errorAlreadyExited, [])
    | some child =>
      if o.sigValid then
        if o.killOk then
          (Except.ok SignalTerm.ok, [Syscall.killCall child.id signal])
        else
          (Except.ok (SignalTerm.errorMsg o.killErrMsg),
            [Syscall.killCall child.id signal])
      else
        (Except.error (NifError.termError "Invalid signal"), [])

/-- OS oracle for `wait_nif`: what `child.wait()` would return. -/
structure WaitOracle where
  result : Except String ExitStatus
deriving Repr

/-- `wait_nif` from lib.rs lines 304-347.  Checks the cache, then waits on
the child if the slot is occupied, caching the computed code.  The
`child = none` arm re-reads the cache (lines 337-344); in this sequential
embedding the cache cannot have changed since the first read, so that arm
falls through to the `Process already reaped` error. -/
def wait_nif (r : ProcessResource) (o : WaitOracle) :
    ProcessResource × Except NifError Int × List Syscall :=
  match r.cached_exit_code with
  | some code => (r, Except.ok code, [])
  | none =>
    match r.child with
    | some child =>
      match o.result with
      | Except.ok status =>
        let code := exit_status_to_code status
        ({ r with cached_exit_code := some code }, Except.ok code,
          [Syscall.waitCall child.id])
      | Except.error e =>
        (r, Except.error (NifError.termError ("Failed to wait: " ++ e)),
          [Syscall.waitCall child.id])
    | none =>
      (r, Except.error (NifError.termError "Process already reaped"), [])

/-- OS oracle for `alive_nif`: what `child.try_wait()` would return:
`Ok(Some(status))`, `Ok(None)`, or `Err(_)`. -/
inductive TryWaitOutcome
  | exitedSt (status : ExitStatus)
  | running
  | errQuery
deriving DecidableEq, Repr

/-- `alive_nif` from lib.rs lines 349-384.  Returns `false` when the cache
is set; otherwise `try_wait`s the child, caching the code when a status is
collected; a query error conservatively yields `false` (without caching);
an empty child slot yields `false`. -/
def alive_nif (r : ProcessResource) (o : TryWaitOutcome) :
    ProcessResource × Except NifError Bool × List Syscall :=
  if r.cached_exit_code.isSome then
    (r, Except.ok false, [])
  else
    match r.child with
    | some child =>
      match o with
      | TryWaitOutcome.exitedSt status =>
        ({ r with cached_exit_code := some (exit_status_to_code status) },
          Except.ok false, [Syscall.tryWaitCall child.id])
      | TryWaitOutcome.running => (r, Except.ok true, [Syscall.tryWaitCall child.id])
      | TryWaitOutcome.errQuery => (r, Except.ok false, [Syscall.tryWaitCall child.id])
    | none => (r, Except.ok false, [])

/-- OS oracle for `write_stdin_nif`: what the single non-blocking
`stdin.write(data)` would return. -/
inductive WriteOutcome
  | wrote (n : Nat)
  | wouldBlockErr
  | brokenPipeErr
  | otherErr (msg : String)
deriving DecidableEq, Repr

/-- Result term of `write_stdin_nif`. -/
inductive WriteTerm
  | ok
  | partialN (n : Nat)
  | wouldBlock
  | errorBrokenPipe
  | errorNotPiped
  | errorMsg (msg : String)
deriving DecidableEq, Repr

/-- `write_stdin_nif` from lib.rs lines 386-412.  A single write attempt on
the stdin slot; does not mutate the handle state. -/
def write_stdin_nif (r : ProcessResource) (o : WriteOutcome)
    (data : List UInt8) : Except NifError WriteTerm × List Syscall :=
  match r.stdin_pipe with
  | some _ =>
    match o with
    | WriteOutcome.wrote n =>
      if n = data.length then (Except.ok WriteTerm.ok, [Syscall.writeCall ()])
      else (Except.ok (WriteTerm.partialN n), [Syscall.writeCall ()])
    | WriteOutcome.wouldBlockErr =>
      (Except.ok WriteTerm.wouldBlock, [Syscall.writeCall ()])
    | WriteOutcome.brokenPipeErr =>
      (Except.ok WriteTerm.errorBrokenPipe, [Syscall.writeCall ()])
    | WriteOutcome.otherErr msg =>
      (Except.ok (WriteTerm.errorMsg msg), [Syscall.writeCall ()])
  | none => (Except.ok WriteTerm.errorNotPiped, [])

/-- OS oracle for the read NIFs: what the single non-blocking
`read(&mut buf)` into the 4096-byte buffer would return — the bytes read
(`Ok(n)` with the buffer prefix), a would-block, or another error. -/
inductive ReadOutcome
  | readBytes (bs : List UInt8)
  | wouldBlockErr
  | otherErr (msg : String)
deriving DecidableEq, Repr

/-- Result term of `read_stdout_nif` / `read_stderr_nif`. -/
inductive ReadTerm
  | eof
  | okBytes (bs : List UInt8)
  | wouldBlock
  | errorNotPiped
  | errorMsg (msg : String)
deriving DecidableEq, Repr

/-- `read_stdout_nif` from lib.rs lines 468-496: a single read on the
stdout slot; zero bytes yield `:eof`, `n` bytes yield `{:ok, bytes}`. -/
def read_stdout_nif (r : ProcessResource) (o : ReadOutcome) :
    Except NifError ReadTerm × List Syscall :=
  match r.stdout_pipe with
  | some _ =>
    match o with
    | ReadOutcome.readBytes bs =>
      if bs.length = 0 then (Except.ok ReadTerm.eof, [Syscall.readCall ()])
      else (Except.ok (ReadTerm.okBytes bs), [Syscall.readCall ()])
    | ReadOutcome.wouldBlockErr =>
      (Except.ok ReadTerm.wouldBlock, [Syscall.readCall ()])
    | ReadOutcome.otherErr msg =>
      (Except.ok (ReadTerm.errorMsg msg), [Syscall.readCall ()])
  | none => (Except.ok ReadTerm.errorNotPiped, [])

/-- `read_stderr_nif` from lib.rs lines 498-526: identical to
`read_stdout_nif` but on the stderr slot. -/
def read_stderr_nif (r : ProcessResource) (o : ReadOutcome) :
    Except NifError ReadTerm × List Syscall :=
  match r.stderr_pipe with
  | some _ =>
    match o with
    | ReadOutcome.readBytes bs =>
      if bs.length = 0 then (Except.ok ReadTerm.eof, [Syscall.readCall ()])
      else (Except.ok (ReadTerm.okBytes bs), [Syscall.readCall ()])
    | ReadOutcome.wouldBlockErr =>
      (Except.ok ReadTerm.wouldBlock, [Syscall.readCall ()])
    | ReadOutcome.otherErr msg =>
      (Except.ok (ReadTerm.errorMsg msg), [Syscall.readCall ()])
  | none => (Except.ok ReadTerm.errorNotPiped, [])

/-- Result term of the close NIFs: `:ok` or `{:error, :not_piped}`. -/
inductive CloseTerm
  | ok
  | errorNotPiped
deriving DecidableEq, Repr

/-- `close_stdin_nif` from lib.rs lines 414-430. -/
def close_stdin_nif (r : ProcessResource) :
    ProcessResource × Except NifError CloseTerm :=
  match r.stdin_pipe with
  | some _ => ({ r with stdin_pipe := none }, Except.ok CloseTerm.ok)
  | none => (r, Except.ok CloseTerm.errorNotPiped)

/-- `close_stdout_nif` from lib.rs lines 432-448. -/
def close_stdout_nif (r : ProcessResource) :
    ProcessResource × Except NifError CloseTerm :=
  match r.stdout_pipe with
  | some _ => ({ r with stdout_pipe := none }, Except.ok CloseTerm.ok)
  | none => (r, Except.ok CloseTerm.errorNotPiped)

/-- `close_stderr_nif` from lib.rs lines 450-466. -/
def close_stderr_nif (r : ProcessResource) :
    ProcessResource × Except NifError CloseTerm :=
  match r.stderr_pipe with
  | some _ => ({ r with stderr_pipe := none }, Except.ok CloseTerm.ok)
  | none => (r, Except.ok CloseTerm.errorNotPiped)

/-- Which stream slots the handle gets: `child.stdin.take()` etc. is `Some`
exactly when the stream was configured as `Stdio::piped()`. -/
def pipeSlot (c : StdioConfig) : Option Unit :=
  match c with
  | StdioConfig.pipeMode => some ()
  | _ => none

/-- OS oracle for `spawn_nif`: outcomes of the eager file opens, of
`command.spawn()`, and of the three `set_nonblocking` calls (each consulted
only when the corresponding OS interaction actually happens). -/
structure SpawnOracle where
  openStdinFile : Except String Unit
  createStdoutFile : Except String Unit
  createStderrFile : Except String Unit
  spawnResult : Except String Child
  stdoutNonblock : Except String Unit
  stderrNonblock : Except String Unit
  stdinNonblock : Except String Unit
deriving Repr

/-- One `Configure stdin/stdout/stderr` arm of `spawn_nif` (lib.rs lines
133-197): `Null`/`Pipe`/`Inherit` make no OS call; `File(path)` eagerly
opens (stdin) or creates (stdout/stderr) the file, surfacing failure with
the stream-specific message. -/
def configure_stdio (isInput : Bool) (streamName : String) (c : StdioConfig)
    (fileResult : Except String Unit) :
    Except NifError Unit × List Syscall :=
  match c with
  | StdioConfig.fileMode path =>
    let call := if isInput then Syscall.openFileCall path
                else Syscall.createFileCall path
    match fileResult with
    | Except.ok _ => (Except.ok (), [call])
    | Except.error e =>
      let verb := if isInput then "open" else "create"
      (Except.error (NifError.termError
        ("Failed to " ++ verb ++ " " ++ streamName ++ " file " ++ path ++ ": " ++ e)),
        [call])
  | _ => (Except.ok (), [])

/-- One `set_nonblocking` arm of `spawn_nif` (lib.rs lines 222-247): only a
present pipe end gets the fcntl calls; failure aborts the launch with the
stream-specific message. -/
def set_nonblocking_step (slot : Option Unit) (res : Except String Unit)
    (streamName : String) : Except NifError Unit × List Syscall :=
  match slot with
  | none => (Except.ok (), [])
  | some _ =>
    match res with
    | Except.ok _ => (Except.ok (), [Syscall.setNonblockingCall])
    | Except.error e =>
      (Except.error (NifError.termError
        ("Failed to set " ++ streamName ++ " non-blocking: " ++ e)),
        [Syscall.setNonblockingCall])

/-- The post-validation part of `spawn_nif` (lib.rs lines 121-259): stdio
configuration with eager file opens, `command.spawn()`, pipe extraction and
the stdout/stderr/stdin non-blocking setup, in source order.  On the
non-blocking failure paths the already-spawned child is dropped by the
early `return Err(...)`; the trace records that no kill or wait is issued
on it. -/
def spawn_launch (stdin_config stdout_config stderr_config : StdioConfig)
    (o : SpawnOracle) : Except NifError (ProcessResource × Int) × List Syscall :=
  match configure_stdio true "stdin" stdin_config o.openStdinFile with
  | (Except.error e, t1) => (Except.error e, t1)
  | (Except.ok _, t1) =>
    match configure_stdio false "stdout" stdout_config o.createStdoutFile with
    | (Except.error e, t2) => (Except.error e, t1 ++ t2)
    | (Except.ok _, t2) =>
      match configure_stdio false "stderr" stderr_config o.createStderrFile with
      | (Except.error e, t3) => (Except.error e, t1 ++ t2 ++ t3)
      | (Except.ok _, t3) =>
        match o.spawnResult with
        | Except.error e =>
          (Except.error (NifError.termError ("Failed to spawn: " ++ e)),
            t1 ++ t2 ++ t3)
        | Except.ok child =>
          let t0 := t1 ++ t2 ++ t3 ++ [Syscall.processSpawned child.id]
          match set_nonblocking_step (pipeSlot stdout_config) o.stdoutNonblock "stdout" with
          | (Except.error e, u1) => (Except.error e, t0 ++ u1)
          | (Except.ok _, u1) =>
            match set_nonblocking_step (pipeSlot stderr_config) o.stderrNonblock "stderr" with
            | (Except.error e, u2) => (Except.error e, t0 ++ u1 ++ u2)
            | (Except.ok _, u2) =>
              match set_nonblocking_step (pipeSlot stdin_config) o.stdinNonblock "stdin" with
              | (Except.error e, u3) => (Except.error e, t0 ++ u1 ++ u2 ++ u3)
              | (Except.ok _, u3) =>
                (Except.ok
                  ({ child := some child,
                     cached_exit_code := none,
                     stdin_pipe := pipeSlot stdin_config,
                     stdout_pipe := pipeSlot stdout_config,
                     stderr_pipe := pipeSlot stderr_config }, child.id),
                  t0 ++ u1 ++ u2 ++ u3)

/-- `spawn_nif` from lib.rs lines 104-260: the three stream configs are
parsed (lines 117-119) before the command is built or any OS interaction
happens; a parse error short-circuits with an empty trace.  `cmd`,
`arguments`, `envArg` and `cd` only shape the command handed to
`command.spawn()`, whose outcome the oracle carries. -/
def spawn_nif (cmd : String) (arguments : List String)
    (stdin_mode stdin_path stdout_mode stdout_path stderr_mode stderr_path : String)
    (envArg : List (String × String)) (cd : String) (o : SpawnOracle) :
    Except NifError (ProcessResource × Int) × List Syscall :=
  match parse_stdio_config stdin_mode stdin_path with
  | Except.error e => (Except.error e, [])
  | Except.ok stdin_config =>
    match parse_stdio_config stdout_mode stdout_path with
    | Except.error e => (Except.error e, [])
    | Except.ok stdout_config =>
      match parse_stdio_config stderr_mode stderr_path with
      | Except.error e => (Except.error e, [])
      | Except.ok stderr_config =>
        spawn_launch stdin_config stdout_config stderr_config o

/-- One invocation of any post-spawn NIF together with its OS oracle, for
stating properties over arbitrary interleavings of handle operations. -/
inductive Op
  | signalOp (o : SignalOracle) (signal : Int)
  | waitOp (o : WaitOracle)
  | aliveOp (o : TryWaitOutcome)
  | writeOp (o : WriteOutcome) (data : List UInt8)
  | readOutOp (o : ReadOutcome)
  | readErrOp (o : ReadOutcome)
  | closeStdinOp
  | closeStdoutOp
  | closeStderrOp

/-- The state transformation of one NIF call.  `signal_nif`, the write and
the read NIFs never assign through their mutex guards, so they leave the
state unchanged; the others return their post-state. -/
def step (r : ProcessResource) : Op → ProcessResource
  | Op.signalOp _ _ => r
  | Op.waitOp o => (wait_nif r o).1
  | Op.aliveOp o => (alive_nif r o).1
  | Op.writeOp _ _ => r
  | Op.readOutOp _ => r
  | Op.readErrOp _ => r
  | Op.closeStdinOp => (close_stdin_nif r).1
  | Op.closeStdoutOp => (close_stdout_nif r).1
  | Op.closeStderrOp => (close_stderr_nif r).1

/-- Running a sequence of NIF calls from a handle state. -/
def run (r : ProcessResource) (ops : List Op) : ProcessResource :=
  ops.foldl step r

/-! ### Helper lemmas on the handle state -/

theorem wait_nif_child (r : ProcessResource) (o : WaitOracle) :
    ((wait_nif r o).1).child = r.child := by
  cases hc : r.cached_exit_code with
  | some c => simp [wait_nif, hc]
  | none =>
    cases hch : r.child with
    | none => simp [wait_nif, hc, hch]
    | some ch =>
      cases hr : o.result with
      | ok s => simp [wait_nif, hc, hch, hr]
      | error e => simp [wait_nif, hc, hch, hr]

theorem alive_nif_child (r : ProcessResource) (o : TryWaitOutcome) :
    ((alive_nif r o).1).child = r.child := by
  cases hc : r.cached_exit_code with
  | some c => simp [alive_nif, hc]
  | none =>
    cases hch : r.child with
    | none => simp [alive_nif, hc, hch]
    | some ch => cases o <;> simp [alive_nif, hc, hch]

theorem step_child_eq (r : ProcessResource) (op : Op) :
    (step r op).child = r.child := by
  cases op with
  | waitOp o => exact wait_nif_child r o
  | aliveOp o => exact alive_nif_child r o
  | closeStdinOp => cases h : r.stdin_pipe <;> simp [step, close_stdin_nif, h]
  | closeStdoutOp => cases h : r.stdout_pipe <;> simp [step, close_stdout_nif, h]
  | closeStderrOp => cases h : r.stderr_pipe <;> simp [step, close_stderr_nif, h]
  | _ => rfl

theorem run_child_eq (r : ProcessResource) (ops : List Op) :
    (run r ops).child = r.child := by
  induction ops generalizing r with
  | nil => rfl
  | cons op ops ih =>
    show (run (step r op) ops).child = r.child
    rw [ih, step_child_eq]

theorem wait_nif_cache_eq (r : ProcessResource) (o : WaitOracle) (c : Int)
    (h : r.cached_exit_code = some c) :
    ((wait_nif r o).1).cached_exit_code = some c := by
  simp [wait_nif, h]

theorem alive_nif_cache_eq (r : ProcessResource) (o : TryWaitOutcome) (c : Int)
    (h : r.cached_exit_code = some c) :
    ((alive_nif r o).1).cached_exit_code = some c := by
  simp [alive_nif, h]

theorem step_cache_eq (r : ProcessResource) (op : Op) (c : Int)
    (h : r.cached_exit_code = some c) :
    (step r op).cached_exit_code = some c := by
  cases op with
  | waitOp o => exact wait_nif_cache_eq r o c h
  | aliveOp o => exact alive_nif_cache_eq r o c h
  | closeStdinOp => cases hp : r.stdin_pipe <;> simp [step, close_stdin_nif, hp, h]
  | closeStdoutOp => cases hp : r.stdout_pipe <;> simp [step, close_stdout_nif, hp, h]
  | closeStderrOp => cases hp : r.stderr_pipe <;> simp [step, close_stderr_nif, hp, h]
  | _ => exact h

theorem run_cache_eq (r : ProcessResource) (ops : List Op) (c : Int)
    (h : r.cached_exit_code = some c) :
    (run r ops).cached_exit_code = some c := by
  induction ops generalizing r with
  | nil => exact h
  | cons op ops ih =>
    show (run (step r op) ops).cached_exit_code = some c
    exact ih (step r op) (step_cache_eq r op c h)

/-! ### Claim theorems -/

/-- C4: exit code mapping — a normal exit yields the process's own exit
code, a signal termination yields `128 + signal`, anything else yields
`-1`; wait and poll both convert the collected OS status through this
mapping (wait returns it, poll stores it in the cache). -/
theorem exit_code_mapping (r : ProcessResource) (status : ExitStatus)
    (c sig : Int) (ch : Child)
    (hcache : r.cached_exit_code = none) (hchild : r.child = some ch) :
    (status.code = some c → exit_status_to_code status = c) ∧
    (status.code = none → status.signal = some sig →
      exit_status_to_code status = 128 + sig) ∧
    (status.code = none → status.signal = none →
      exit_status_to_code status = -1) ∧
    (wait_nif r ⟨Except.ok status⟩).2.1 =
      Except.ok (exit_status_to_code status) ∧
    ((alive_nif r (TryWaitOutcome.exitedSt status)).1).cached_exit_code =
      some (exit_status_to_code status) := by
  refine ⟨?_, ?_, ?_, ?_, ?_⟩
  · intro h; simp [exit_status_to_code, h]
  · intro h1 h2; simp [exit_status_to_code, h1, h2]
  · intro h1 h2; simp [exit_status_to_code, h1, h2]
  · simp [wait_nif, hcache, hchild]
  · simp [alive_nif, hcache, hchild]

/-- Witness for C4 at the spec's own examples: exit(7) yields 7, a kill by
signal 9 yields 137, an unqueryable status yields -1, and wait returns the
mapped code. -/
theorem exit_code_mapping_witness :
    exit_status_to_code ⟨some 7, none⟩ = 7 ∧
    exit_status_to_code ⟨none, some 9⟩ = 137 ∧
    exit_status_to_code ⟨none, none⟩ = -1 ∧
    (wait_nif ⟨some ⟨12⟩, none, none, none, none⟩
        ⟨Except.ok ⟨none, some 9⟩⟩).2.1 = Except.ok 137 := by
  have h := exit_code_mapping ⟨some ⟨12⟩, none, none, none, none⟩
    ⟨none, some 9⟩ 7 9 ⟨12⟩ rfl rfl
  have h7 := exit_code_mapping ⟨some ⟨12⟩, none, none, none, none⟩
    ⟨some 7, none⟩ 7 9 ⟨12⟩ rfl rfl
  have hu := exit_code_mapping ⟨some ⟨12⟩, none, none, none, none⟩
    ⟨none, none⟩ 7 9 ⟨12⟩ rfl rfl
  refine ⟨h7.1 rfl, ?_, hu.2.2.1 rfl rfl, ?_⟩
  · have := h.2.1 rfl rfl; simpa using this
  · have := h.2.2.2.1; simpa using this

/-- C5: wait idempotence through the exit cache — with a populated cache,
wait returns the cached code at once, issues no OS syscall and leaves the
state unchanged; and whenever a wait returns a code, a second wait returns
the same code with no OS syscall. -/
theorem wait_idempotent (r : ProcessResource) (c : Int) (o o2 : WaitOracle) :
    (r.cached_exit_code = some c →
      (wait_nif r o).2.1 = Except.ok c ∧
      (wait_nif r o).2.2 = [] ∧
      (wait_nif r o).1 = r) ∧
    ((wait_nif r o).2.1 = Except.ok c →
      (wait_nif (wait_nif r o).1 o2).2.1 = Except.ok c ∧
      (wait_nif (wait_nif r o).1 o2).2.2 = []) := by
  constructor
  · intro h
    simp [wait_nif, h]
  · intro h
    cases hc : r.cached_exit_code with
    | some c0 =>
      simp [wait_nif, hc] at h
      simp [wait_nif, hc, h]
    | none =>
      cases hch : r.child with
      | none => simp [wait_nif, hc, hch] at h
      | some ch =>
        cases hr : o.result with
        | error e => simp [wait_nif, hc, hch, hr] at h
        | ok status =>
          simp [wait_nif, hc, hch, hr] at h
          simp [wait_nif, hc, hch, hr, h]

/-- Witness for C5: a handle with cached exit code 3 answers both waits
with 3 and no syscall. -/
theorem wait_idempotent_witness :
    (wait_nif ⟨some ⟨9⟩, some 3, none, none, none⟩
      ⟨Except.error "never"⟩).2.1 = Except.ok 3 ∧
    (wait_nif ⟨some ⟨9⟩, some 3, none, none, none⟩
      ⟨Except.error "never"⟩).2.2 = [] :=
  ⟨((wait_idempotent ⟨some ⟨9⟩, some 3, none, none, none⟩ 3
      ⟨Except.error "never"⟩ ⟨Except.error "never"⟩).1 rfl).1,
   ((wait_idempotent ⟨some ⟨9⟩, some 3, none, none, none⟩ 3
      ⟨Except.error "never"⟩ ⟨Except.error "never"⟩).1 rfl).2.1⟩

/-- C1 counterexample: on a live handle, a liveness poll whose `try_wait`
fails returns `false` (a terminal-state observation in the claim's sense)
without populating the exit cache, and the very next signal call still
issues a kill syscall and returns `:ok` — refuting "every subsequent signal
call returns AlreadyExited and does not issue a kill syscall". -/
theorem signal_after_false_poll_counterexample :
    (alive_nif ⟨some ⟨101⟩, none, some (), some (), some ()⟩
        TryWaitOutcome.errQuery).2.1 = Except.ok false ∧
    (signal_nif (alive_nif ⟨some ⟨101⟩, none, some (), some (), some ()⟩
        TryWaitOutcome.errQuery).1 ⟨true, true, "e"⟩ 15).1 =
      Except.ok SignalTerm.ok ∧
    (signal_nif (alive_nif ⟨some ⟨101⟩, none, some (), some (), some ()⟩
        TryWaitOutcome.errQuery).1 ⟨true, true, "e"⟩ 15).2 =
      [Syscall.killCall 101 15] :=
  ⟨rfl, rfl, rfl⟩

/-- C1 (amended): signal-after-exit safety holds for the terminal
observations that populate the exit cache — a wait that returned an exit
code, or a poll that reaped the process — and once the cache is populated,
every subsequent signal call, after any further sequence of operations on
the handle, returns AlreadyExited and issues no kill syscall.  A poll that
returns false merely because the OS status query failed does not populate
the cache and does not give this protection. -/
theorem signal_after_exit_safety (r : ProcessResource) (c : Int)
    (wo : WaitOracle) (status : ExitStatus) (ops : List Op)
    (so : SignalOracle) (sig : Int) :
    ((wait_nif r wo).2.1 = Except.ok c →
      ((wait_nif r wo).1).cached_exit_code.isSome = true) ∧
    (r.cached_exit_code = none → r.child.isSome = true →
      ((alive_nif r (TryWaitOutcome.exitedSt status)).1).cached_exit_code.isSome = true) ∧
    (r.cached_exit_code = some c →
      (signal_nif (run r ops) so sig).1 = Except.ok SignalTerm.errorAlreadyExited ∧
      (signal_nif (run r ops) so sig).2 = []) := by
  refine ⟨?_, ?_, ?_⟩
  · intro h
    cases hc : r.cached_exit_code with
    | some c0 => simp [wait_nif, hc]
    | none =>
      cases hch : r.child with
      | none => simp [wait_nif, hc, hch] at h
      | some ch =>
        cases hr : wo.result with
        | error e => simp [wait_nif, hc, hch, hr] at h
        | ok st => simp [wait_nif, hc, hch, hr]
  · intro h1 h2
    cases hch : r.child with
    | none => rw [hch] at h2; simp at h2
    | some ch => simp [alive_nif, h1, hch]
  · intro h
    have hcache : (run r ops).cached_exit_code = some c := run_cache_eq r ops c h
    constructor <;> simp [signal_nif, hcache]

/-- Witness for C1 (amended): a successful wait populates the cache, and a
signal after further operations on a cached handle refuses with no kill. -/
theorem signal_after_exit_safety_witness :
    ((wait_nif ⟨some ⟨7⟩, none, none, none, none⟩
        ⟨Except.ok ⟨some 3, none⟩⟩).1).cached_exit_code.isSome = true ∧
    (signal_nif (run ⟨some ⟨7⟩, some 5, none, none, none⟩
        [Op.aliveOp TryWaitOutcome.running]) ⟨true, true, "e"⟩ 9).1 =
      Except.ok SignalTerm.errorAlreadyExited ∧
    (signal_nif (run ⟨some ⟨7⟩, some 5, none, none, none⟩
        [Op.aliveOp TryWaitOutcome.running]) ⟨true, true, "e"⟩ 9).2 = [] :=
  ⟨(signal_after_exit_safety ⟨some ⟨7⟩, none, none, none, none⟩ 3
      ⟨Except.ok ⟨some 3, none⟩⟩ ⟨some 3, none⟩ [] ⟨true, true, "e"⟩ 9).1 rfl,
   ((signal_after_exit_safety ⟨some ⟨7⟩, some 5, none, none, none⟩ 5
      ⟨Except.ok ⟨some 3, none⟩⟩ ⟨some 3, none⟩
      [Op.aliveOp TryWaitOutcome.running] ⟨true, true, "e"⟩ 9).2.2 rfl).1,
   ((signal_after_exit_safety ⟨some ⟨7⟩, some 5, none, none, none⟩ 5
      ⟨Except.ok ⟨some 3, none⟩⟩ ⟨some 3, none⟩
      [Op.aliveOp TryWaitOutcome.running] ⟨true, true, "e"⟩ 9).2.2 rfl).2⟩

/-- C2 counterexample: a wait that reaps the process (storing exit code 0
into the cache) leaves the child slot still occupied by the OS process
object — refuting "the wait_slot no longer holds the live OS process
object". -/
theorem wait_slot_emptied_counterexample :
    ((wait_nif ⟨some ⟨42⟩, none, none, none, none⟩
        ⟨Except.ok ⟨some 0, none⟩⟩).1).cached_exit_code = some 0 ∧
    ((wait_nif ⟨some ⟨42⟩, none, none, none, none⟩
        ⟨Except.ok ⟨some 0, none⟩⟩).1).child = some ⟨42⟩ :=
  ⟨rfl, rfl⟩

/-- C2 (amended): the wait_slot is never emptied.  When a wait or poll
reaps the OS process it stores the exit code into exit_cache, and the
child slot keeps holding the process object unchanged; exit_cache, not an
emptied wait_slot, is what records termination. -/
theorem wait_slot_preserved_on_reap (r : ProcessResource)
    (status : ExitStatus) (ch : Child)
    (h1 : r.cached_exit_code = none) (h2 : r.child = some ch) :
    ((wait_nif r ⟨Except.ok status⟩).1).cached_exit_code =
      some (exit_status_to_code status) ∧
    ((wait_nif r ⟨Except.ok status⟩).1).child = some ch ∧
    ((alive_nif r (TryWaitOutcome.exitedSt status)).1).cached_exit_code =
      some (exit_status_to_code status) ∧
    ((alive_nif r (TryWaitOutcome.exitedSt status)).1).child = some ch := by
  refine ⟨?_, ?_, ?_, ?_⟩
  · simp [wait_nif, h1, h2]
  · simp [wait_nif, h1, h2]
  · simp [alive_nif, h1, h2]
  · simp [alive_nif, h1, h2]

/-- Witness for C2 (amended): reaping a process that exited with code 3
caches 3 and keeps the child slot occupied, for both wait and poll. -/
theorem wait_slot_preserved_on_reap_witness :
    ((wait_nif ⟨some ⟨8⟩, none, none, none, none⟩
        ⟨Except.ok ⟨some 3, none⟩⟩).1).cached_exit_code = some 3 ∧
    ((wait_nif ⟨some ⟨8⟩, none, none, none, none⟩
        ⟨Except.ok ⟨some 3, none⟩⟩).1).child = some ⟨8⟩ :=
  ⟨(wait_slot_preserved_on_reap ⟨some ⟨8⟩, none, none, none, none⟩
      ⟨some 3, none⟩ ⟨8⟩ rfl rfl).1,
   (wait_slot_preserved_on_reap ⟨some ⟨8⟩, none, none, none, none⟩
      ⟨some 3, none⟩ ⟨8⟩ rfl rfl).2.1⟩

theorem failed_wait_msg_ne (e : String) :
    ("Failed to wait: " ++ e) ≠ "Process already reaped" := by
  intro h
  have h2 : ("Failed to wait: " ++ e).data = "Process already reaped".data := by
    rw [h]
  rw [String.data_append] at h2
  have h3 := congrArg (fun l => List.take 16 l) h2
  simp only [List.take_append_of_le_length
    (by decide : 16 ≤ "Failed to wait: ".data.length)] at h3
  exact absurd h3 (by decide)

/-- C9: no operation on a handle ever empties the child slot — every step
preserves it, so once spawn has populated it with `some child` it stays
`some child` under any sequence of operations — and consequently a wait on
such a handle never returns the `Process already reaped` error: that
branch is unreachable. -/
theorem child_slot_never_emptied (r : ProcessResource) (op : Op)
    (ops : List Op) (o : WaitOracle) (ch : Child) (h : r.child = some ch) :
    (step r op).child = r.child ∧
    (run r ops).child = some ch ∧
    (wait_nif r o).2.1 ≠ Except.error (NifError.termError "Process already reaped") := by
  refine ⟨step_child_eq r op, by rw [run_child_eq, h], ?_⟩
  cases hc : r.cached_exit_code with
  | some c => simp [wait_nif, hc]
  | none =>
    cases hr : o.result with
    | ok s => simp [wait_nif, hc, h, hr]
    | error e =>
      have heq : (wait_nif r o).2.1 =
          Except.error (NifError.termError ("Failed to wait: " ++ e)) := by
        simp [wait_nif, hc, h, hr]
      rw [heq]
      intro hcontra
      injection hcontra with h1
      injection h1 with h2
      exact failed_wait_msg_ne e h2

/-- Witness for C9: after closing stdin and polling a still-running
process the child slot is intact, and a wait whose OS call fails reports
the OS failure, never the AlreadyReaped error. -/
theorem child_slot_never_emptied_witness :
    (run ⟨some ⟨11⟩, none, some (), some (), some ()⟩
        [Op.closeStdinOp, Op.aliveOp TryWaitOutcome.running]).child = some ⟨11⟩ ∧
    (wait_nif ⟨some ⟨11⟩, none, some (), some (), some ()⟩
        ⟨Except.error "EINTR"⟩).2.1 ≠
      Except.error (NifError.termError "Process already reaped") :=
  ⟨(child_slot_never_emptied ⟨some ⟨11⟩, none, some (), some (), some ()⟩
      Op.closeStdinOp [Op.closeStdinOp, Op.aliveOp TryWaitOutcome.running]
      ⟨Except.error "EINTR"⟩ ⟨11⟩ rfl).2.1,
   (child_slot_never_emptied ⟨some ⟨11⟩, none, some (), some (), some ()⟩
      Op.closeStdinOp [Op.closeStdinOp, Op.aliveOp TryWaitOutcome.running]
      ⟨Except.error "EINTR"⟩ ⟨11⟩ rfl).2.2⟩

/-- C10: signal-number validation order — the exited checks come first, so
any signal number (valid or not) against a handle with a populated exit
cache, or with an empty child slot, yields the AlreadyExited error tuple
with no kill syscall, while an invalid signal number against a live handle
yields the raised NIF error `Invalid signal` (an `Except.error`, not an
`{:error, ...}` tuple result). -/
theorem signal_validation_order (r : ProcessResource) (o : SignalOracle)
    (sig : Int) (c : Int) (ch : Child) :
    (r.cached_exit_code = some c →
      (signal_nif r o sig).1 = Except.ok SignalTerm.errorAlreadyExited ∧
      (signal_nif r o sig).2 = []) ∧
    (r.cached_exit_code = none → r.child = none →
      (signal_nif r o sig).1 = Except.ok SignalTerm.errorAlreadyExited ∧
      (signal_nif r o sig).2 = []) ∧
    (r.cached_exit_code = none → r.child = some ch → o.sigValid = false →
      (signal_nif r o sig).1 = Except.error (NifError.termError "Invalid signal") ∧
      (signal_nif r o sig).2 = []) := by
  refine ⟨?_, ?_, ?_⟩ <;> intros <;> constructor <;> simp [signal_nif, *]

/-- Witness for C10: signal number 999 (invalid) on an exited handle gives
AlreadyExited, while the same number on a live handle raises the Invalid
signal NIF error. -/
theorem signal_validation_order_witness :
    (signal_nif ⟨some ⟨3⟩, some 0, none, none, none⟩
        ⟨false, true, "e"⟩ 999).1 = Except.ok SignalTerm.errorAlreadyExited ∧
    (signal_nif ⟨some ⟨3⟩, none, none, none, none⟩
        ⟨false, true, "e"⟩ 999).1 = Except.error (NifError.termError "Invalid signal") :=
  ⟨((signal_validation_order ⟨some ⟨3⟩, some 0, none, none, none⟩
      ⟨false, true, "e"⟩ 999 0 ⟨3⟩).1 rfl).1,
   ((signal_validation_order ⟨some ⟨3⟩, none, none, none, none⟩
      ⟨false, true, "e"⟩ 999 0 ⟨3⟩).2.2 rfl rfl rfl).1⟩

/-- C7: write outcome classification — with a populated stdin slot, a
write accepting the whole buffer yields Ok (and Ok arises exactly when the
accepted count equals the buffer length), accepting only `n < len` bytes
yields Partial(n), a would-block condition yields WouldBlock, a closed
read end yields BrokenPipe, any other OS error yields the generic error
with its text; with an empty stdin slot every write yields NotPiped. -/
theorem write_outcome_classification (r : ProcessResource)
    (data : List UInt8) (n : Nat) (msg : String) (u : Unit) (o : WriteOutcome) :
    (r.stdin_pipe = some u →
      (write_stdin_nif r (WriteOutcome.wrote data.length) data).1 =
        Except.ok WriteTerm.ok ∧
      (n < data.length →
        (write_stdin_nif r (WriteOutcome.wrote n) data).1 =
          Except.ok (WriteTerm.partialN n)) ∧
      (write_stdin_nif r WriteOutcome.wouldBlockErr data).1 =
        Except.ok WriteTerm.wouldBlock ∧
      (write_stdin_nif r WriteOutcome.brokenPipeErr data).1 =
        Except.ok WriteTerm.errorBrokenPipe ∧
      (write_stdin_nif r (WriteOutcome.otherErr msg) data).1 =
        Except.ok (WriteTerm.errorMsg msg) ∧
      (∀ m : Nat, m ≤ data.length →
        ((write_stdin_nif r (WriteOutcome.wrote m) data).1 =
            Except.ok WriteTerm.ok ↔ m = data.length))) ∧
    (r.stdin_pipe = none →
      (write_stdin_nif r o data).1 = Except.ok WriteTerm.errorNotPiped) := by
  constructor
  · intro h
    refine ⟨?_, ?_, ?_, ?_, ?_, ?_⟩
    · simp [write_stdin_nif, h]
    · intro hn
      simp [write_stdin_nif, h, Nat.ne_of_lt hn]
    · simp [write_stdin_nif, h]
    · simp [write_stdin_nif, h]
    · simp [write_stdin_nif, h]
    · intro m _
      by_cases hme : m = data.length <;> simp [write_stdin_nif, h, hme]
  · intro h
    cases o <;> simp [write_stdin_nif, h]

/-- Witness for C7: writing 3 of 3 bytes yields Ok, 1 of 3 yields
Partial(1), and a write on an unpiped stdin yields NotPiped. -/
theorem write_outcome_classification_witness :
    (write_stdin_nif ⟨some ⟨2⟩, none, some (), none, none⟩
        (WriteOutcome.wrote 3) [1, 2, 3]).1 = Except.ok WriteTerm.ok ∧
    (write_stdin_nif ⟨some ⟨2⟩, none, some (), none, none⟩
        (WriteOutcome.wrote 1) [1, 2, 3]).1 = Except.ok (WriteTerm.partialN 1) ∧
    (write_stdin_nif ⟨some ⟨2⟩, none, none, none, none⟩
        WriteOutcome.wouldBlockErr [1, 2, 3]).1 = Except.ok WriteTerm.errorNotPiped :=
  ⟨((write_outcome_classification ⟨some ⟨2⟩, none, some (), none, none⟩
      [1, 2, 3] 1 "m" () WriteOutcome.wouldBlockErr).1 rfl).1,
   (((write_outcome_classification ⟨some ⟨2⟩, none, some (), none, none⟩
      [1, 2, 3] 1 "m" () WriteOutcome.wouldBlockErr).1 rfl).2.1 (by decide)),
   ((write_outcome_classification ⟨some ⟨2⟩, none, none, none, none⟩
      [1, 2, 3] 1 "m" () WriteOutcome.wouldBlockErr).2 rfl)⟩

/-- C8: read outcome classification — on a populated stdout (or stderr)
slot, a single read yields Eof exactly when zero bytes were read, Ok with
the 1..=4096 bytes read otherwise, WouldBlock on the would-block
condition, the generic error with its text otherwise, and at most one OS
read call is made per invocation (read never blocks or retries); an empty
slot yields NotPiped. -/
theorem read_outcome_classification (r : ProcessResource) (bs : List UInt8)
    (msg : String) (u u2 : Unit) (o : ReadOutcome) :
    (r.stdout_pipe = some u →
      ((read_stdout_nif r (ReadOutcome.readBytes bs)).1 =
          Except.ok ReadTerm.eof ↔ bs.length = 0) ∧
      (1 ≤ bs.length → bs.length ≤ 4096 →
        (read_stdout_nif r (ReadOutcome.readBytes bs)).1 =
          Except.ok (ReadTerm.okBytes bs) ∧ 1 ≤ bs.length ∧ bs.length ≤ 4096) ∧
      (read_stdout_nif r ReadOutcome.wouldBlockErr).1 =
        Except.ok ReadTerm.wouldBlock ∧
      (read_stdout_nif r (ReadOutcome.otherErr msg)).1 =
        Except.ok (ReadTerm.errorMsg msg) ∧
      (read_stdout_nif r o).2.length ≤ 1) ∧
    (r.stdout_pipe = none →
      (read_stdout_nif r o).1 = Except.ok ReadTerm.errorNotPiped) ∧
    (r.stderr_pipe = some u2 →
      ((read_stderr_nif r (ReadOutcome.readBytes bs)).1 =
          Except.ok ReadTerm.eof ↔ bs.length = 0) ∧
      (1 ≤ bs.length → bs.length ≤ 4096 →
        (read_stderr_nif r (ReadOutcome.readBytes bs)).1 =
          Except.ok (ReadTerm.okBytes bs)) ∧
      (read_stderr_nif r ReadOutcome.wouldBlockErr).1 =
        Except.ok ReadTerm.wouldBlock ∧
      (read_stderr_nif r (ReadOutcome.otherErr msg)).1 =
        Except.ok (ReadTerm.errorMsg msg) ∧
      (read_stderr_nif r o).2.length ≤ 1) ∧
    (r.stderr_pipe = none →
      (read_stderr_nif r o).1 = Except.ok ReadTerm.errorNotPiped) := by
  refine ⟨?_, ?_, ?_, ?_⟩
  · intro h
    refine ⟨?_, ?_, ?_, ?_, ?_⟩
    · by_cases hb : bs.length = 0 <;> simp [read_stdout_nif, h, hb]
    · intro h1 h2
      have hb : ¬ bs.length = 0 := by omega
      exact ⟨by simp [read_stdout_nif, h, hb], h1, h2⟩
    · simp [read_stdout_nif, h]
    · simp [read_stdout_nif, h]
    · cases o with
      | readBytes bs2 =>
        by_cases hb : bs2.length = 0 <;> simp [read_stdout_nif, h, hb]
      | wouldBlockErr => simp [read_stdout_nif, h]
      | otherErr m => simp [read_stdout_nif, h]
  · intro h
    cases o <;> simp [read_stdout_nif, h]
  · intro h
    refine ⟨?_, ?_, ?_, ?_, ?_⟩
    · by_cases hb : bs.length = 0 <;> simp [read_stderr_nif, h, hb]
    · intro h1 h2
      have hb : ¬ bs.length = 0 := by omega
      simp [read_stderr_nif, h, hb]
    · simp [read_stderr_nif, h]
    · simp [read_stderr_nif, h]
    · cases o with
      | readBytes bs2 =>
        by_cases hb : bs2.length = 0 <;> simp [read_stderr_nif, h, hb]
      | wouldBlockErr => simp [read_stderr_nif, h]
      | otherErr m => simp [read_stderr_nif, h]
  · intro h
    cases o <;> simp [read_stderr_nif, h]

/-- Witness for C8: a zero-byte read yields Eof, a two-byte read yields Ok
with those bytes, and a read on an unpiped stderr yields NotPiped. -/
theorem read_outcome_classification_witness :
    (read_stdout_nif ⟨some ⟨2⟩, none, none, some (), some ()⟩
        (ReadOutcome.readBytes [])).1 = Except.ok ReadTerm.eof ∧
    (read_stdout_nif ⟨some ⟨2⟩, none, none, some (), some ()⟩
        (ReadOutcome.readBytes [10, 20])).1 =
      Except.ok (ReadTerm.okBytes [10, 20]) ∧
    (read_stderr_nif ⟨some ⟨2⟩, none, none, some (), none⟩
        ReadOutcome.wouldBlockErr).1 = Except.ok ReadTerm.errorNotPiped :=
  ⟨(((read_outcome_classification ⟨some ⟨2⟩, none, none, some (), some ()⟩
      [] "m" () () ReadOutcome.wouldBlockErr).1 rfl).1).mpr rfl,
   ((((read_outcome_classification ⟨some ⟨2⟩, none, none, some (), some ()⟩
      [10, 20] "m" () () ReadOutcome.wouldBlockErr).1 rfl).2.1
        (by decide) (by decide))).1,
   ((read_outcome_classification ⟨some ⟨2⟩, none, none, some (), none⟩
      [] "m" () () ReadOutcome.wouldBlockErr).2.2.2 rfl)⟩

theorem configure_stdio_no_cleanup (i : Bool) (nm : String) (c : StdioConfig)
    (f : Except String Unit) (p : Int) :
    ((configure_stdio i nm c f).2.all fun s => !(s.isCleanupOf p)) = true := by
  cases c <;> cases f <;> cases i <;>
    simp [configure_stdio, Syscall.isCleanupOf]

theorem set_nonblocking_step_no_cleanup (slot : Option Unit)
    (res : Except String Unit) (nm : String) (p : Int) :
    ((set_nonblocking_step slot res nm).2.all fun s => !(s.isCleanupOf p)) = true := by
  cases slot <;> cases res <;> simp [set_nonblocking_step, Syscall.isCleanupOf]

theorem spawn_launch_no_cleanup (c1 c2 c3 : StdioConfig) (o : SpawnOracle)
    (p : Int) :
    ((spawn_launch c1 c2 c3 o).2.all fun s => !(s.isCleanupOf p)) = true := by
  have ha1 := configure_stdio_no_cleanup true "stdin" c1 o.openStdinFile p
  have ha2 := configure_stdio_no_cleanup false "stdout" c2 o.createStdoutFile p
  have ha3 := configure_stdio_no_cleanup false "stderr" c3 o.createStderrFile p
  have hb1 := set_nonblocking_step_no_cleanup (pipeSlot c2) o.stdoutNonblock "stdout" p
  have hb2 := set_nonblocking_step_no_cleanup (pipeSlot c3) o.stderrNonblock "stderr" p
  have hb3 := set_nonblocking_step_no_cleanup (pipeSlot c1) o.stdinNonblock "stdin" p
  unfold spawn_launch
  cases hc1 : configure_stdio true "stdin" c1 o.openStdinFile with
  | mk r1 t1 =>
  rw [hc1] at ha1
  cases r1 with
  | error e1 => simpa using ha1
  | ok u1 =>
  cases hc2 : configure_stdio false "stdout" c2 o.createStdoutFile with
  | mk r2 t2 =>
  rw [hc2] at ha2
  cases r2 with
  | error e2 => simp [List.all_append, ha1, ha2]
  | ok u2 =>
  cases hc3 : configure_stdio false "stderr" c3 o.createStderrFile with
  | mk r3 t3 =>
  rw [hc3] at ha3
  cases r3 with
  | error e3 => simp [List.all_append, ha1, ha2, ha3]
  | ok u3 =>
  cases hs : o.spawnResult with
  | error e => simp [List.all_append, ha1, ha2, ha3]
  | ok child =>
  cases hd1 : set_nonblocking_step (pipeSlot c2) o.stdoutNonblock "stdout" with
  | mk s1 v1 =>
  rw [hd1] at hb1
  cases s1 with
  | error e => simp_all [List.all_append, Syscall.isCleanupOf]
  | ok w1 =>
  cases hd2 : set_nonblocking_step (pipeSlot c3) o.stderrNonblock "stderr" with
  | mk s2 v2 =>
  rw [hd2] at hb2
  cases s2 with
  | error e => simp_all [List.all_append, Syscall.isCleanupOf]
  | ok w2 =>
  cases hd3 : set_nonblocking_step (pipeSlot c1) o.stdinNonblock "stdin" with
  | mk s3 v3 =>
  rw [hd3] at hb3
  cases s3 with
  | error e => simp_all [List.all_append, Syscall.isCleanupOf]
  | ok w3 => simp_all [List.all_append, Syscall.isCleanupOf]

/-- C3 counterexample: a spawn with piped stdout whose `set_nonblocking`
call fails returns a launch error (no handle) — but the already-created OS
process (pid 77) appears in the trace with no subsequent kill or wait on
it: the engine drops it without cleaning it up, refuting "the
partially-constructed OS process is cleaned up by the engine rather than
leaked". -/
theorem spawn_cleanup_counterexample :
    (spawn_nif "cat" [] "pipe" "" "pipe" "" "null" "" [] ""
        ⟨Except.ok (), Except.ok (), Except.ok (), Except.ok ⟨77⟩,
         Except.error "EBADF", Except.ok (), Except.ok ()⟩).1 =
      Except.error (NifError.termError "Failed to set stdout non-blocking: EBADF") ∧
    (spawn_nif "cat" [] "pipe" "" "pipe" "" "null" "" [] ""
        ⟨Except.ok (), Except.ok (), Except.ok (), Except.ok ⟨77⟩,
         Except.error "EBADF", Except.ok (), Except.ok ()⟩).2 =
      [Syscall.processSpawned 77, Syscall.setNonblockingCall] ∧
    ((spawn_nif "cat" [] "pipe" "" "pipe" "" "null" "" [] ""
        ⟨Except.ok (), Except.ok (), Except.ok (), Except.ok ⟨77⟩,
         Except.error "EBADF", Except.ok (), Except.ok ()⟩).2.all
      fun s => !(s.isCleanupOf 77)) = true :=
  ⟨rfl, rfl, rfl⟩

/-- C3 (amended): launch failure returns no handle, but the engine never
cleans up a partially-constructed OS process — no spawn call ever issues a
kill, wait or try_wait syscall, so a process created before a later setup
failure (e.g. a failed non-blocking-mode switch on a pipe) is dropped
unreaped and unkilled rather than cleaned up. -/
theorem spawn_failure_no_handle_no_cleanup
    (cmd : String) (arguments : List String)
    (stdin_mode stdin_path stdout_mode stdout_path stderr_mode stderr_path : String)
    (envArg : List (String × String)) (cd : String) (o : SpawnOracle) (p : Int) :
    ((spawn_nif cmd arguments stdin_mode stdin_path stdout_mode stdout_path
        stderr_mode stderr_path envArg cd o).2.all
      fun s => !(s.isCleanupOf p)) = true ∧
    (∀ sc1 sc3 t1 t3 child e,
      configure_stdio true "stdin" sc1 o.openStdinFile = (Except.ok (), t1) →
      configure_stdio false "stderr" sc3 o.createStderrFile = (Except.ok (), t3) →
      o.spawnResult = Except.ok child →
      o.stdoutNonblock = Except.error e →
      (spawn_launch sc1 StdioConfig.pipeMode sc3 o).1 =
        Except.error (NifError.termError
          ("Failed to set stdout non-blocking: " ++ e)) ∧
      Syscall.processSpawned child.id ∈
        (spawn_launch sc1 StdioConfig.pipeMode sc3 o).2) := by
  constructor
  · unfold spawn_nif
    cases parse_stdio_config stdin_mode stdin_path with
    | error e => simp
    | ok c1 =>
      cases parse_stdio_config stdout_mode stdout_path with
      | error e => simp
      | ok c2 =>
        cases parse_stdio_config stderr_mode stderr_path with
        | error e => simp
        | ok c3 => exact spawn_launch_no_cleanup c1 c2 c3 o p
  · intro sc1 sc3 t1 t3 child e h1 h3 hs hnb
    have hcfg2 : configure_stdio false "stdout" StdioConfig.pipeMode
        o.createStdoutFile = (Except.ok (), []) := rfl
    have hstep : set_nonblocking_step (pipeSlot StdioConfig.pipeMode)
        o.stdoutNonblock "stdout" =
        (Except.error (NifError.termError
          ("Failed to set stdout non-blocking: " ++ e)),
         [Syscall.setNonblockingCall]) := by
      simp [set_nonblocking_step, pipeSlot, hnb]
    constructor
    · simp [spawn_launch, h1, hcfg2, h3, hs, hstep]
    · simp [spawn_launch, h1, hcfg2, h3, hs, hstep]

/-- Witness for C3 (amended): the concrete failed launch of the
counterexample has a cleanup-free trace, and the generic failure shape
instantiates to it. -/
theorem spawn_failure_no_handle_no_cleanup_witness :
    ((spawn_nif "cat" [] "pipe" "" "pipe" "" "null" "" [] ""
        ⟨Except.ok (), Except.ok (), Except.ok (), Except.ok ⟨77⟩,
         Except.error "EBADF", Except.ok (), Except.ok ()⟩).2.all
      fun s => !(s.isCleanupOf 77)) = true ∧
    Syscall.processSpawned 77 ∈
      (spawn_launch StdioConfig.pipeMode StdioConfig.pipeMode StdioConfig.nullMode
        ⟨Except.ok (), Except.ok (), Except.ok (), Except.ok ⟨77⟩,
         Except.error "EBADF", Except.ok (), Except.ok ()⟩).2 :=
  ⟨(spawn_failure_no_handle_no_cleanup "cat" [] "pipe" "" "pipe" "" "null" "" [] ""
      ⟨Except.ok (), Except.ok (), Except.ok (), Except.ok ⟨77⟩,
       Except.error "EBADF", Except.ok (), Except.ok ()⟩ 77).1,
   ((spawn_failure_no_handle_no_cleanup "cat" [] "pipe" "" "pipe" "" "null" "" [] ""
      ⟨Except.ok (), Except.ok (), Except.ok (), Except.ok ⟨77⟩,
       Except.error "EBADF", Except.ok (), Except.ok ()⟩ 77).2
      StdioConfig.pipeMode StdioConfig.nullMode [] [] ⟨77⟩ "EBADF"
      rfl rfl rfl rfl).2⟩

/-- C6: configuration validation precedes all OS interaction — an invalid
stream mode string, or file mode with an empty path, on any of the three
streams makes spawn return the configuration error with an empty syscall
trace: no file is opened or created and no process is spawned, so
configuration errors never partially apply. -/
theorem config_validation_precedes_os
    (cmd : String) (arguments : List String)
    (stdin_mode stdin_path stdout_mode stdout_path stderr_mode stderr_path : String)
    (envArg : List (String × String)) (cd : String) (o : SpawnOracle)
    (mode path : String) :
    (∀ e, parse_stdio_config stdin_mode stdin_path = Except.error e →
      spawn_nif cmd arguments stdin_mode stdin_path stdout_mode stdout_path
        stderr_mode stderr_path envArg cd o = (Except.error e, [])) ∧
    (∀ c1 e, parse_stdio_config stdin_mode stdin_path = Except.ok c1 →
      parse_stdio_config stdout_mode stdout_path = Except.error e →
      spawn_nif cmd arguments stdin_mode stdin_path stdout_mode stdout_path
        stderr_mode stderr_path envArg cd o = (Except.error e, [])) ∧
    (∀ c1 c2 e, parse_stdio_config stdin_mode stdin_path = Except.ok c1 →
      parse_stdio_config stdout_mode stdout_path = Except.ok c2 →
      parse_stdio_config stderr_mode stderr_path = Except.error e →
      spawn_nif cmd arguments stdin_mode stdin_path stdout_mode stdout_path
        stderr_mode stderr_path envArg cd o = (Except.error e, [])) ∧
    (mode ≠ "null" → mode ≠ "pipe" → mode ≠ "inherit" → mode ≠ "file" →
      parse_stdio_config mode path = Except.error (NifError.termError
        ("invalid stdio mode: " ++ mode ++ ", expected null, pipe, inherit, or file"))) ∧
    parse_stdio_config "file" "" =
      Except.error (NifError.termError "file mode requires a path") := by
  refine ⟨?_, ?_, ?_, ?_, rfl⟩
  · intro e h
    simp [spawn_nif, h]
  · intro c1 e h1 h2
    simp [spawn_nif, h1, h2]
  · intro c1 c2 e h1 h2 h3
    simp [spawn_nif, h1, h2, h3]
  · intro h1 h2 h3 h4
    simp [parse_stdio_config, h1, h2, h3, h4]

/-- Witness for C6: a spawn whose stdout mode string is `bogus` fails with
the configuration error and an empty trace, and file mode with an empty
path is rejected. -/
theorem config_validation_precedes_os_witness :
    spawn_nif "c" [] "null" "" "bogus" "" "pipe" "" [] ""
        ⟨Except.ok (), Except.ok (), Except.ok (), Except.ok ⟨1⟩,
         Except.ok (), Except.ok (), Except.ok ()⟩ =
      (Except.error (NifError.termError
        "invalid stdio mode: bogus, expected null, pipe, inherit, or file"), []) ∧
    parse_stdio_config "file" "" =
      Except.error (NifError.termError "file mode requires a path") :=
  ⟨(config_validation_precedes_os "c" [] "null" "" "bogus" "" "pipe" "" [] ""
      ⟨Except.ok (), Except.ok (), Except.ok (), Except.ok ⟨1⟩,
       Except.ok (), Except.ok (), Except.ok ()⟩ "bogus" "").2.1
      StdioConfig.nullMode
      (NifError.termError
        "invalid stdio mode: bogus, expected null, pipe, inherit, or file")
      rfl rfl,
   (config_validation_precedes_os "c" [] "null" "" "bogus" "" "pipe" "" [] ""
      ⟨Except.ok (), Except.ok (), Except.ok (), Except.ok ⟨1⟩,
       Except.ok (), Except.ok (), Except.ok ()⟩ "bogus" "").2.2.2.2⟩

end P
